import Mathlib

/-!
# gohome: command builder (lutron), recipe supervisor, recipe handlers, discovery

A shallow embedding of `extensions/lutron/cmd_builder.go`, `recipe.go`, the recipe
handlers of `www/server.go` and the device classification of `pkg/www/discovery.go`.

Effects are made explicit.  A Go function returning `error` becomes a function
returning a `Run`: the `Outcome` (returned `nil`, returned an error, or a
run-time panic) together with the ordered trace of the external calls it made
(pool `Get`/`Release`, driver `SetLevel`/`ButtonPress`, raw writes).
Pointers that may be `nil` are `Option`s; a Go map from string to pointer is a
function into `Option` (an absent key reads as `nil`).
-/

namespace GoHome

/-- A pooled connection, handed to emitters as their `io.Writer`. -/
abbrev Conn := Nat

/-- Identity of a connection pool object (`Device.Connections`). -/
abbrev PoolId := Nat

/-- A `time.Duration`, in nanoseconds. -/
abbrev Duration := Nat

/-- The level value carried by `cmd.ZoneSetLevel` (`command.Level.Value`).  The
code only passes it along and compares nothing, so the carrier is the rationals:
`100.0` is `100`, `0.0` is `0`, `42.5` is `85/2`. -/
abbrev Level := Rat

/-- Go's `time.Second`. -/
def timeSecond : Duration := 1000000000

/-- The message of the run-time panic raised by dereferencing a nil pointer. -/
def nilDeref : String := "runtime error: invalid memory address or nil pointer dereference"

/-- External calls observable from the command builder. -/
inductive Event where
  | poolGet (pool : PoolId) (timeout : Duration)
  | poolRelease (pool : PoolId) (conn : Conn)
  | setLevel (level : Level) (address : String) (w : Conn)
  | buttonPress (deviceAddress : String) (buttonAddress : String) (w : Conn)
  | write (w : Conn) (data : String)
  deriving DecidableEq, Repr

/-- How a Go call of result type `error` ends. -/
inductive Outcome where
  | ok
  | err (msg : String)
  | panic (msg : String)
  deriving DecidableEq, Repr

/-- The result of running an effectful Go function: how it ended and what it did. -/
structure Run where
  outcome : Outcome
  trace : List Event
  deriving DecidableEq, Repr

/-- The fields of `gohome.Device` that the builder reads: `ID`, the optional
parent `Hub` pointer and the `Connections` pool. -/
inductive Device where
  | mk (ID : String) (Hub : Option Device) (Connections : PoolId)

/-- Field `ID`. -/
def Device.ID : Device → String
  | .mk i _ _ => i

/-- Field `Hub` (`nil` is `none`). -/
def Device.Hub : Device → Option Device
  | .mk _ h _ => h

/-- Field `Connections`. -/
def Device.Connections : Device → PoolId
  | .mk _ _ p => p

/-- The fields of `zone.Zone` that the builder reads. -/
structure Zone where
  ID : String
  DeviceID : String

/-- The registry part of `gohome.System`: `Zones` and `Devices`, maps from id to pointer. -/
structure System where
  Zones : String → Option Zone
  Devices : String → Option Device

/-- The behaviour of the pools: what `Connections.Get(timeout)` returns on a given pool. -/
abbrev PoolEnv := PoolId → Duration → Except String Conn

/-- The vendor handle `lutronExt.Device`: the two driver operations the builder calls.
Each writes to `w` and returns an error or nil (or panics). -/
structure Driver where
  SetLevel : Level → String → Conn → Outcome
  ButtonPress : String → String → Conn → Outcome

/-- The struct `cmdBuilder`. -/
structure cmdBuilder where
  System : GoHome.System
  device : Option Driver

/-- The command variants of package `cmd`, with the fields the builder reads. -/
inductive Command where
  | ZoneSetLevel (ZoneID : String) (ZoneAddress : String) (Level : Level)
  | ZoneTurnOn (ZoneID : String) (ZoneAddress : String)
  | ZoneTurnOff (ZoneID : String) (ZoneAddress : String)
  | ButtonPress (DeviceID : String) (DeviceAddress : String) (ButtonAddress : String)
  | ButtonRelease (DeviceID : String) (DeviceAddress : String) (ButtonAddress : String)
  | SceneSet (SceneID : String)
  deriving DecidableEq, Repr

/-- An emitter handed to `getWriterAndExec`: given the writer, it acts and returns. -/
abbrev Emitter := Conn → Run

/-- The closure stored in `cmd.Func`.  It captured the pointer `b`, so when it runs it
reads the builder as it is then, in the pool environment of that moment. -/
abbrev Func := cmdBuilder → PoolEnv → Run

/-- The function `getWriterAndExec`.  `d` is a pointer: `none` is nil and `d.Hub` then
panics.  The deferred `Release` runs once `Get` has succeeded, whether `f` returns or
panics. -/
def getWriterAndExec (env : PoolEnv) (d : Option Device) (f : Emitter) : Run :=
  match d with
  | none => ⟨.panic nilDeref, []⟩
  | some d =>
    let hub : Device :=
      match d.Hub with
      | some h => h
      | none => d
    match env hub.Connections (timeSecond * 5) with
    | .error e =>
      ⟨.err ("error connecting, pool returned err: " ++ e),
        [.poolGet hub.Connections (timeSecond * 5)]⟩
    | .ok conn =>
      let r := f conn
      let out : Outcome :=
        match r.outcome with
        | .ok => .ok
        | .err e => .err ("Failed to send command " ++ e ++ "\n")
        | .panic m => .panic m
      ⟨out, [.poolGet hub.Connections (timeSecond * 5)] ++ r.trace
              ++ [.poolRelease hub.Connections conn]⟩

/-- The call `b.device.SetLevel(level, address, w)`; a nil `b.device` panics. -/
def callSetLevel (b : cmdBuilder) (level : Level) (address : String) : Emitter :=
  fun w =>
    match b.device with
    | none => ⟨.panic nilDeref, []⟩
    | some drv => ⟨drv.SetLevel level address w, [.setLevel level address w]⟩

/-- The call `b.device.ButtonPress(deviceAddress, buttonAddress, w)`. -/
def callButtonPress (b : cmdBuilder) (deviceAddress buttonAddress : String) : Emitter :=
  fun w =>
    match b.device with
    | none => ⟨.panic nilDeref, []⟩
    | some drv =>
      ⟨drv.ButtonPress deviceAddress buttonAddress w, [.buttonPress deviceAddress buttonAddress w]⟩

/-- The method `cmdBuilder.ID`. -/
def cmdBuilder.ID (_b : cmdBuilder) : String := "l-bdgpro2-wh"

/-- What `Build` returns: the pair `(*cmd.Func, error)`. -/
structure BuildResult where
  func : Option Func
  error : Option String

/-- The method `cmdBuilder.Build`.  `deviceFromModelNumber` is the vendor library's
`lutronExt.DeviceFromModelNumber`.  The result comes with the builder as `Build` leaves it
(the handle is stored on first success). -/
def cmdBuilder.Build (deviceFromModelNumber : String → Except String Driver)
    (b : cmdBuilder) (c : Command) : BuildResult × cmdBuilder :=
  let init : Except String cmdBuilder :=
    match b.device with
    | some _ => .ok b
    | none =>
      match deviceFromModelNumber b.ID with
      | .error err => .error err
      | .ok lDev => .ok { b with device := some lDev }
  match init with
  | .error err => (⟨none, some err⟩, b)
  | .ok b1 =>
    match c with
    | .ZoneSetLevel zoneID zoneAddress level =>
      (⟨some (fun b env =>
          match b.System.Zones zoneID with
          | none => ⟨.panic nilDeref, []⟩
          | some z =>
            let dev := b.System.Devices z.DeviceID
            getWriterAndExec env dev (fun w => callSetLevel b level zoneAddress w)), none⟩, b1)
    | .ZoneTurnOn zoneID zoneAddress =>
      (⟨some (fun b env =>
          match b.System.Zones zoneID with
          | none => ⟨.panic nilDeref, []⟩
          | some z =>
            let dev := b.System.Devices z.DeviceID
            getWriterAndExec env dev (fun w => callSetLevel b 100 zoneAddress w)), none⟩, b1)
    | .ZoneTurnOff zoneID zoneAddress =>
      (⟨some (fun b env =>
          match b.System.Zones zoneID with
          | none => ⟨.panic nilDeref, []⟩
          | some z =>
            let dev := b.System.Devices z.DeviceID
            getWriterAndExec env dev (fun w => callSetLevel b 0 zoneAddress w)), none⟩, b1)
    | .ButtonPress deviceID deviceAddress buttonAddress =>
      (⟨some (fun b env =>
          let dev := b.System.Devices deviceID
          getWriterAndExec env dev
            (fun w => callButtonPress b deviceAddress buttonAddress w)), none⟩, b1)
    | .ButtonRelease deviceID deviceAddress buttonAddress =>
      (⟨some (fun b env =>
          let dev := b.System.Devices deviceID
          getWriterAndExec env dev
            (fun w => callButtonPress b deviceAddress buttonAddress w)), none⟩, b1)
    | _ => (⟨none, some "unsupported command type"⟩, b1)

/-- Running what `Build` returned: builds on `b`, then runs the emitter on the builder as
`Build` left it.  `none` when `Build` returned no emitter. -/
def buildAndRun (deviceFromModelNumber : String → Except String Driver)
    (b : cmdBuilder) (c : Command) (env : PoolEnv) : Option Run :=
  match (b.Build deviceFromModelNumber c).1.func with
  | none => none
  | some f => some (f (b.Build deviceFromModelNumber c).2 env)


/-! ## `recipe.go`: the supervisor started by `Recipe.Start`

The goroutine's `select` is driven by a schedule: the list, in order, of which channel is
ready next (`fire`: a value can be received on the fire channel; `done`: on the done
channel, which includes its being closed).  A nil channel is never ready for `select`, so
an entry naming a channel that is nil is passed over while the `select` keeps waiting. -/

/-- A Go channel value; `none` is the nil channel. -/
abbrev Chan := Option Nat

/-- Which channel the environment makes ready next. -/
inductive Ready where
  | fire
  | done
  deriving DecidableEq, Repr

/-- The interface `Trigger`, as far as `Recipe.Start` uses it: `Start()` returns the pair
`(fireChan, doneChan)`. -/
structure Trigger where
  Start : Chan × Chan

/-- The interface `Action`: `Execute(system)` returns an error or nil. -/
structure Action where
  Execute : System → Option String

/-- The struct `Recipe`. -/
structure Recipe where
  ID : String
  Name : String
  Description : String
  Trigger : GoHome.Trigger
  Action : GoHome.Action
  Version : String
  system : System

/-- What the supervisor goroutine does, in order. -/
inductive RecipeEvent where
  | recvFire
  | recvDone
  | printf (line : String)
  | execute (system : System) (err : Option String)

/-- The state of the supervisor goroutine: its variable `doneChan`, what it has done so
far, and whether it has left the `for` loop. -/
structure Supervisor where
  doneChan : Chan
  log : List RecipeEvent
  exited : Bool

/-- The action task spawned on a firing: one call `r.Action.Execute(r.system)`, whose
error is dropped. -/
def Recipe.actionTask (r : Recipe) : RecipeEvent :=
  .execute r.system (r.Action.Execute r.system)

/-- The check that ends an iteration: `if doneChan == nil { break }`. -/
def Supervisor.checkBreak (s : Supervisor) : Supervisor :=
  match s.doneChan with
  | none => { s with exited := true }
  | some _ => s

/-- One readiness event offered to the supervisor.  After the loop has been left nothing
is received.  Otherwise the `select` receives if the channel named is not nil (and then
the iteration ends with the `doneChan == nil` check), and keeps waiting if it is nil. -/
def Recipe.step (r : Recipe) (fireChan : Chan) (s : Supervisor) (m : Ready) : Supervisor :=
  if s.exited then s
  else
    match m with
    | .fire =>
      match fireChan with
      | none => s
      | some _ =>
        Supervisor.checkBreak
          { s with log := s.log ++ [.recvFire,
              .printf ("Recipe: " ++ r.Name ++ " - trigger fired\n"), r.actionTask] }
    | .done =>
      match s.doneChan with
      | none => s
      | some _ =>
        Supervisor.checkBreak { s with doneChan := none, log := s.log ++ [.recvDone] }

/-- The supervisor goroutine run from state `s` against a schedule. -/
def Recipe.supervise (r : Recipe) (fireChan : Chan) (s : Supervisor) (sched : List Ready) :
    Supervisor :=
  sched.foldl (r.step fireChan) s

/-- The method `Recipe.Start`: starts the trigger, starts the supervisor goroutine (here
run against `sched`) and returns the done channel. -/
def Recipe.Start (r : Recipe) (sched : List Ready) : Chan × Supervisor :=
  let fireChan := r.Trigger.Start.1
  let doneChan := r.Trigger.Start.2
  (doneChan, r.supervise fireChan ⟨doneChan, [], false⟩ sched)

/-- The `execute` events of a log. -/
def RecipeEvent.isExecute : RecipeEvent → Bool
  | .execute _ _ => true
  | _ => false

/-- The `recvFire` events of a log. -/
def RecipeEvent.isRecvFire : RecipeEvent → Bool
  | .recvFire => true
  | _ => false

/-- The `recvDone` events of a log. -/
def RecipeEvent.isRecvDone : RecipeEvent → Bool
  | .recvDone => true
  | _ => false

/-! ## Specification-side vocabulary -/

/-- The pool `getWriterAndExec` is expected to use for `d`: the hub's when `d` has a hub
parent, `d`'s own otherwise. -/
def poolOf (d : Device) : PoolId :=
  match d.Hub with
  | some h => h.Connections
  | none => d.Connections

/-- The pool an event acts on, if it is a pool event. -/
def Event.pool : Event → Option PoolId
  | .poolGet p _ => some p
  | .poolRelease p _ => some p
  | _ => none

/-- Whether an event is a pool `Release`. -/
def Event.isRelease : Event → Bool
  | .poolRelease _ _ => true
  | _ => false

/-- The command variants the lutron builder is said to handle. -/
def supported : Command → Bool
  | .ZoneSetLevel _ _ _ => true
  | .ZoneTurnOn _ _ => true
  | .ZoneTurnOff _ _ => true
  | .ButtonPress _ _ _ => true
  | .ButtonRelease _ _ _ => true
  | .SceneSet _ => false

/-- How the function `getWriterAndExec` reports the emitter's outcome. -/
def wrapOutcome : Outcome → Outcome
  | .ok => .ok
  | .err e => .err ("Failed to send command " ++ e ++ "\n")
  | .panic m => .panic m

/-- The log invariant of the supervisor: as many `execute` events as `recvFire` events, and
every `execute` event is the recipe's action task. -/
def Recipe.logOk (r : Recipe) (log : List RecipeEvent) : Prop :=
  log.countP RecipeEvent.isExecute = log.countP RecipeEvent.isRecvFire
    ∧ ∀ e ∈ log, e.isExecute = true → e = r.actionTask

/-! ## Sample data -/

/-- A hub device owning pool 7. -/
def hub1 : Device := .mk "h1" none 7

/-- A child of `hub1`, with a pool of its own (9) that must stay untouched. -/
def dimmer1 : Device := .mk "d1" (some hub1) 9

/-- A registry with zone `z1` on `dimmer1`, zone `z2` on an unregistered device, and the
devices `h1` and `d1`. -/
def sys1 : System where
  Zones := fun i =>
    if i = "z1" then some ⟨"z1", "d1"⟩
    else if i = "z2" then some ⟨"z2", "gone"⟩
    else none
  Devices := fun i =>
    if i = "h1" then some hub1
    else if i = "d1" then some dimmer1
    else none

/-- A driver whose calls all succeed. -/
def okDriver : Driver where
  SetLevel := fun _ _ _ => .ok
  ButtonPress := fun _ _ _ => .ok

/-- A vendor library that knows every model. -/
def okLibrary : String → Except String Driver := fun _ => .ok okDriver

/-- Pools that always hand out connection 3. -/
def okPools : PoolEnv := fun _ _ => .ok 3

/-- Pools of which only pool 7 hands out a connection (3); every other pool fails. -/
def hubOnlyPools : PoolEnv := fun p _ => if p = 7 then .ok 3 else .error "no such pool"

/-- Pools whose `Get` always times out. -/
def deadPools : PoolEnv := fun _ _ => .error "timeout"

/-- A builder on `sys1` whose handle is not constructed yet. -/
def builder1 : cmdBuilder := ⟨sys1, none⟩

/-- An action that always fails. -/
def failingAction : Action := ⟨fun _ => some "boom"⟩

/-- A recipe whose trigger returns two live channels and whose action always fails. -/
def recipe1 : Recipe := ⟨"r1", "lights", "", ⟨(some 1, some 2)⟩, failingAction, "1", sys1⟩

/-- A recipe whose trigger returns a live fire channel and a nil done channel. -/
def recipe2 : Recipe := ⟨"r2", "lights", "", ⟨(some 1, none)⟩, failingAction, "1", sys1⟩

/-! ## `www/server.go`: the recipe handlers

A handler run is the ordered list of what it does to the `http.ResponseWriter` and which
collaborators it calls.  The collaborators (`gohome.RecipeManager`, `system.Save`, the JSON
decoder, the request) are given by a `HandlerEnv` holding what each returns in this
request. -/

/-- Go's `http.StatusOK`. -/
def StatusOK : Nat := 200

/-- Go's `http.StatusBadRequest`. -/
def StatusBadRequest : Nat := 400

/-- Go's `http.StatusInternalServerError`. -/
def StatusInternalServerError : Nat := 500

/-- A decoded `map[string]interface{}`; the handler only passes it on. -/
abbrev JsonMap := List (String × String)

/-- The struct `gohome.ErrUnmarshalRecipe`. -/
structure ErrUnmarshalRecipe where
  ParamID : String
  ErrorType : String
  Description : String
  deriving DecidableEq, Repr

/-- The error value of `UnmarshalNewRecipe`: an `*ErrUnmarshalRecipe`, or an error of some
other dynamic type (on which the handler's type assertion panics). -/
inductive UnmarshalFailure where
  | bad (e : ErrUnmarshalRecipe)
  | other (msg : String)

/-- The values the recipe handlers encode as JSON. -/
inductive Payload where
  | empty
  | recipeID (ID : String)
  | unmarshalError (ParamID : String) (ErrorType : String) (Description : String)
  deriving DecidableEq, Repr

/-- What a recipe handler does, in order. -/
inductive HttpEvent where
  | writeHeader (status : Nat)
  | setHeader (key : String) (value : String)
  | encode (p : Payload)
  | println (msg : String)
  | registerAndStart (recipeID : String)
  | enableRecipe (recipeID : String) (enabled : Bool)
  | deleteRecipe (recipeID : String)
  | save
  | panic (msg : String)
  deriving DecidableEq, Repr

/-- The methods of `gohome.RecipeManager` that the handlers call, as they answer during one
request. -/
structure RecipeManager where
  UnmarshalNewRecipe : JsonMap → Except UnmarshalFailure Recipe
  RecipeByID : String → Option Recipe
  EnableRecipe : Recipe → Bool → Option String
  DeleteRecipe : Recipe → Option String

/-- One request as a handler sees it: the result of reading the body, the route variables
(`mux.Vars(r)`), the JSON decoder on the two target types, the recipe manager, and what
`system.Save(recipeManager)` returns. -/
structure HandlerEnv where
  readAll : Except String String
  vars : String → String
  unmarshalMap : String → Except String JsonMap
  unmarshalEnabled : String → Except String Bool
  recipeManager : RecipeManager
  Save : Option String

/-- The handler returned by `apiRecipesHandlerPost`. -/
def apiRecipesHandlerPost (env : HandlerEnv) : List HttpEvent :=
  match env.readAll with
  | .error _ => [.writeHeader StatusBadRequest]
  | .ok body =>
    match env.unmarshalMap body with
    | .error _ => [.writeHeader StatusBadRequest]
    | .ok data =>
      match env.recipeManager.UnmarshalNewRecipe data with
      | .error (.other _) =>
        [.panic "interface conversion: error is not *gohome.ErrUnmarshalRecipe"]
      | .error (.bad errBad) =>
        [.writeHeader StatusBadRequest,
          .setHeader "Content-Type" "application/json; charset=utf-8",
          .encode (.unmarshalError errBad.ParamID errBad.ErrorType errBad.Description)]
      | .ok recipe =>
        let err := env.Save
        [.registerAndStart recipe.ID, .save] ++
          (match err with
          | some e => [.println e, .writeHeader StatusInternalServerError]
          | none =>
            [.setHeader "Content-Type" "application/json; charset=utf-8",
              .encode (.recipeID recipe.ID)])

/-- The handler returned by `apiRecipeHandler` (enable or disable a recipe).  The value
`system.Save` returns is not assigned: the test after it reads the `err` of
`EnableRecipe`. -/
def apiRecipeHandler (env : HandlerEnv) : List HttpEvent :=
  match env.readAll with
  | .error _ => [.writeHeader StatusBadRequest]
  | .ok body =>
    match env.unmarshalEnabled body with
    | .error _ => [.writeHeader StatusBadRequest]
    | .ok enabled =>
      let recipeID := env.vars "id"
      match env.recipeManager.RecipeByID recipeID with
      | none => [.writeHeader StatusBadRequest]
      | some recipe =>
        let err := env.recipeManager.EnableRecipe recipe enabled
        match err with
        | some _ => [.enableRecipe recipe.ID enabled, .writeHeader StatusInternalServerError]
        | none =>
          let _dropped := env.Save
          [.enableRecipe recipe.ID enabled, .save] ++
            (match err with
            | some _ => [.writeHeader StatusInternalServerError]
            | none =>
              [.setHeader "Content-Type" "application/json; charset=utf-8", .encode .empty])

/-- The handler returned by `apiRecipeHandlerDelete`.  A `DeleteRecipe` error writes the
status without returning; the value `system.Save` returns is not assigned: the test after
it reads the `err` of `DeleteRecipe`. -/
def apiRecipeHandlerDelete (env : HandlerEnv) : List HttpEvent :=
  let recipeID := env.vars "id"
  match env.recipeManager.RecipeByID recipeID with
  | none => [.writeHeader StatusBadRequest]
  | some recipe =>
    let err := env.recipeManager.DeleteRecipe recipe
    let _dropped := env.Save
    [.deleteRecipe recipe.ID] ++
      (match err with
      | some _ => [.writeHeader StatusInternalServerError]
      | none => []) ++
      [.save] ++
      (match err with
      | some _ => [.writeHeader StatusInternalServerError]
      | none =>
        [.setHeader "Content-Type" "application/json; charset=utf-8", .encode .empty])

/-- The status the client receives: that of the first `WriteHeader`, or 200 if the body
is written first or nothing is written at all (`net/http`). -/
def responseStatus : List HttpEvent → Nat
  | [] => StatusOK
  | .writeHeader s :: _ => s
  | .encode _ :: _ => StatusOK
  | _ :: rest => responseStatus rest

/-- Whether an event writes a handler's success body. -/
def HttpEvent.isSuccessBody : HttpEvent → Bool
  | .encode .empty => true
  | .encode (.recipeID _) => true
  | _ => false

/-- Whether an event is a call of `system.Save`. -/
def HttpEvent.isSave : HttpEvent → Bool
  | .save => true
  | _ => false

/-- A recipe manager that finds `recipe1` under every id and whose mutations succeed. -/
def okManager : RecipeManager where
  UnmarshalNewRecipe := fun _ => .ok recipe1
  RecipeByID := fun _ => some recipe1
  EnableRecipe := fun _ _ => none
  DeleteRecipe := fun _ => none

/-- A well-formed request on recipe `r1` during which `system.Save` fails. -/
def saveFails : HandlerEnv where
  readAll := .ok "body"
  vars := fun _ => "r1"
  unmarshalMap := fun _ => .ok []
  unmarshalEnabled := fun _ => .ok true
  recipeManager := okManager
  Save := some "disk full"

/-! ## `pkg/www/discovery.go`: the classification in `writeDiscoveryResults`

Devices are heap objects reached through pointers, since the second loop assigns to
`device.Hub`.  The maps are keyed by id, so a later assignment under a key replaces an
earlier one. -/

/-- A non-nil `*gohome.Device`. -/
abbrev Ptr := Nat

/-- The fields of `gohome.Device` that the classification reads or writes. -/
structure DeviceObj where
  ID : String
  Hub : Option Ptr
  deriving DecidableEq, Repr

/-- The device objects, by address. -/
abbrev Heap := Ptr → DeviceObj

/-- A `map[string]*gohome.Device`. -/
abbrev DeviceMap := String → Option Ptr

/-- The result of `make(map[string]*gohome.Device)`. -/
def DeviceMap.empty : DeviceMap := fun _ => none

/-- The assignment `m[k] = p`. -/
def DeviceMap.set (m : DeviceMap) (k : String) (p : Ptr) : DeviceMap :=
  fun k2 => if k2 = k then some p else m k2

/-- The assignment `p.Hub = hub`. -/
def Heap.setHub (heap : Heap) (p : Ptr) (hub : Ptr) : Heap :=
  fun q => if q = p then { heap p with Hub := some hub } else heap q

/-- One classifying assignment: `dupeDevices[key] = device` or `inputDevices[key] = device`. -/
inductive Classified where
  | asDupe (key : String) (device : Ptr)
  | asNew (key : String) (device : Ptr)
  deriving DecidableEq, Repr

/-- The local state of `writeDiscoveryResults` during its two device loops, with the
classifying assignments made so far, in order. -/
structure Discovery where
  heap : Heap
  inputDevices : DeviceMap
  dupeDevices : DeviceMap
  deviceToDupe : DeviceMap
  log : List Classified

/-- The body of the first loop for one `device`.  `IsDupeDevice` is `sys.IsDupeDevice`:
it reads the device (and what it points to) and returns the existing device when it
reports a duplicate. -/
def hubPass (IsDupeDevice : Heap → Ptr → Option Ptr) (s : Discovery) (device : Ptr) :
    Discovery :=
  match (s.heap device).Hub with
  | some _ => s
  | none =>
    match IsDupeDevice s.heap device with
    | some dupeDevice =>
      { s with
        dupeDevices := s.dupeDevices.set (s.heap dupeDevice).ID device
        deviceToDupe := s.deviceToDupe.set (s.heap device).ID dupeDevice
        log := s.log ++ [.asDupe (s.heap dupeDevice).ID device] }
    | none =>
      { s with
        inputDevices := s.inputDevices.set (s.heap device).ID device
        log := s.log ++ [.asNew (s.heap device).ID device] }

/-- The body of the second loop for one `device`. -/
def childPass (IsDupeDevice : Heap → Ptr → Option Ptr) (s : Discovery) (device : Ptr) :
    Discovery :=
  match (s.heap device).Hub with
  | none => s
  | some hub =>
    let heap1 : Heap :=
      match s.deviceToDupe (s.heap hub).ID with
      | some dupeDevice => s.heap.setHub device dupeDevice
      | none => s.heap
    match IsDupeDevice heap1 device with
    | some dupeDevice =>
      { s with
        heap := heap1
        dupeDevices := s.dupeDevices.set (heap1 dupeDevice).ID device
        log := s.log ++ [.asDupe (heap1 dupeDevice).ID device] }
    | none =>
      { s with
        heap := heap1
        inputDevices := s.inputDevices.set (heap1 device).ID device
        log := s.log ++ [.asNew (heap1 device).ID device] }

/-- The device part of `writeDiscoveryResults`, up to the end of its second loop over
`result.Devices`: the three maps are made and the two loops run.  (The JSON output that
follows reads `inputDevices` and `dupeDevices`.) -/
def writeDiscoveryResults (IsDupeDevice : Heap → Ptr → Option Ptr) (heap : Heap)
    (devices : List Ptr) : Discovery :=
  let s0 : Discovery := ⟨heap, DeviceMap.empty, DeviceMap.empty, DeviceMap.empty, []⟩
  let s1 := devices.foldl (hubPass IsDupeDevice) s0
  devices.foldl (childPass IsDupeDevice) s1

/-! ### Specification-side vocabulary for the classification -/

/-- The device a classifying assignment is about. -/
def Classified.device : Classified → Ptr
  | .asDupe _ p => p
  | .asNew _ p => p

/-- Whether a device is a hub device (`Hub` absent). -/
def isHub (heap : Heap) (p : Ptr) : Bool := (heap p).Hub.isNone

/-- Whether a device is a child (`Hub` present). -/
def isChild (heap : Heap) (p : Ptr) : Bool := (heap p).Hub.isSome

/-- The classification expected of device `p` tested in `heap`: a duplicate, keyed by the
id of the existing device, exactly when `IsDupeDevice` reports one; new, keyed by its own
id, otherwise. -/
def classifyAt (IsDupeDevice : Heap → Ptr → Option Ptr) (heap : Heap) (p : Ptr) : Classified :=
  match IsDupeDevice heap p with
  | some existing => .asDupe (heap existing).ID p
  | none => .asNew (heap p).ID p

/-- The heap in which child `p` is expected to be tested: its `Hub` replaced by the
existing device that `deviceToDupe` holds under the id of its hub, if any. -/
def patched (deviceToDupe : DeviceMap) (heap : Heap) (p : Ptr) : Heap :=
  match (heap p).Hub with
  | none => heap
  | some hub =>
    match deviceToDupe (heap hub).ID with
    | some existing => heap.setHub p existing
    | none => heap

/-- The classifications expected of the children, in order, each tested after its own
patch (and those of the children before it). -/
def childLog (IsDupeDevice : Heap → Ptr → Option Ptr) (deviceToDupe : DeviceMap) :
    Heap → List Ptr → List Classified
  | _, [] => []
  | heap, p :: ps =>
    classifyAt IsDupeDevice (patched deviceToDupe heap p) p
      :: childLog IsDupeDevice deviceToDupe (patched deviceToDupe heap p) ps

/-- The heap expected after all children have been patched. -/
def patchedAll (deviceToDupe : DeviceMap) : Heap → List Ptr → Heap
  | heap, [] => heap
  | heap, p :: ps => patchedAll deviceToDupe (patched deviceToDupe heap p) ps

/-- The entry of `deviceToDupe` expected for hub device `p`: its id leads to the existing
device when it is a duplicate. -/
def dupeStep (IsDupeDevice : Heap → Ptr → Option Ptr) (heap : Heap) (m : DeviceMap)
    (p : Ptr) : DeviceMap :=
  match IsDupeDevice heap p with
  | some existing => m.set (heap p).ID existing
  | none => m

/-- The map `deviceToDupe` expected after the hub devices: under each hub id, the existing
device reported for the last duplicate hub with that id. -/
def dupeOfHubs (IsDupeDevice : Heap → Ptr → Option Ptr) (heap : Heap) (hubs : List Ptr) :
    DeviceMap :=
  hubs.foldl (dupeStep IsDupeDevice heap) DeviceMap.empty

/-- Replaying a classifying assignment on `inputDevices`. -/
def Classified.applyNew (m : DeviceMap) : Classified → DeviceMap
  | .asNew k p => m.set k p
  | .asDupe _ _ => m

/-- Replaying a classifying assignment on `dupeDevices`. -/
def Classified.applyDupe (m : DeviceMap) : Classified → DeviceMap
  | .asDupe k p => m.set k p
  | .asNew _ _ => m

/-- A discovery heap: 1 is a discovered hub `h`, 2 a discovered child `c` of 1, 3 a
discovered hub `n`, 10 the already imported device `H0`. -/
def heap1 : Heap := fun p =>
  if p = 1 then ⟨"h", none⟩
  else if p = 2 then ⟨"c", some 1⟩
  else if p = 3 then ⟨"n", none⟩
  else ⟨"H0", none⟩

/-- A system in which the discovered hub 1 duplicates the imported device 10, and nothing
else is a duplicate. -/
def isDupe1 : Heap → Ptr → Option Ptr := fun _ p => if p = 1 then some 10 else none

/-! ## The connection borrow: `getWriterAndExec` -/

/-- Unfolding of `getWriterAndExec` on a non-nil device when `Get` fails. -/
theorem getWriterAndExec_get_error (env : PoolEnv) (d : Device) (f : Emitter) (e : String)
    (h : env (poolOf d) (timeSecond * 5) = .error e) :
    getWriterAndExec env (some d) f =
      ⟨.err ("error connecting, pool returned err: " ++ e),
        [.poolGet (poolOf d) (timeSecond * 5)]⟩ := by
  unfold poolOf at h ⊢
  unfold getWriterAndExec
  cases hd : d.Hub with
  | none => simp only [hd] at h ⊢; simp only [h]
  | some hb => simp only [hd] at h ⊢; simp only [h]

/-- Unfolding of `getWriterAndExec` on a non-nil device when `Get` hands out `c`. -/
theorem getWriterAndExec_get_ok (env : PoolEnv) (d : Device) (f : Emitter) (c : Conn)
    (h : env (poolOf d) (timeSecond * 5) = .ok c) :
    getWriterAndExec env (some d) f =
      ⟨match (f c).outcome with
        | .ok => .ok
        | .err e => .err ("Failed to send command " ++ e ++ "\n")
        | .panic m => .panic m,
        [.poolGet (poolOf d) (timeSecond * 5)] ++ (f c).trace
          ++ [.poolRelease (poolOf d) c]⟩ := by
  unfold poolOf at h ⊢
  unfold getWriterAndExec
  cases hd : d.Hub with
  | none => simp only [hd] at h ⊢; simp only [h]
  | some hb => simp only [hd] at h ⊢; simp only [h]

/-- The timeout passed to `Get`, `time.Second * 5`, is five seconds in nanoseconds. -/
theorem timeout_eq : timeSecond * 5 = 5000000000 := by decide

/-- After a successful `Build` on a builder whose handle can be constructed, the builder
holds that handle. -/
theorem build_snd_device (lib : String → Except String Driver) (b : cmdBuilder) (drv : Driver)
    (c : Command)
    (hdrv : b.device = some drv ∨ (b.device = none ∧ lib b.ID = .ok drv)) :
    (b.Build lib c).2.device = some drv ∧ (b.Build lib c).2.System = b.System := by
  rcases hdrv with h | ⟨h, hl⟩
  · cases c <;> simp [cmdBuilder.Build, h]
  · cases c <;> simp [cmdBuilder.Build, h, hl]

/-! ## Claims about the lutron builder -/

/-- C1: for a `ZoneSetLevel` command with level `L` and zone address `A` whose zone and
device are registered, running the emitter that `Build` returns performs exactly the calls
`Get` (on the pool, 5 s), `SetLevel(L, A, w)` with `w` the connection `Get` handed out, and
`Release(w)`, in this order and nothing else; the level is passed through unchanged. -/
theorem C1_zoneSetLevel_calls (lib : String → Except String Driver) (b : cmdBuilder)
    (drv : Driver) (zoneID A : String) (L : Level) (env : PoolEnv) (z : Zone) (dev : Device)
    (w : Conn)
    (hdrv : b.device = some drv ∨ (b.device = none ∧ lib b.ID = .ok drv))
    (hz : b.System.Zones zoneID = some z)
    (hd : b.System.Devices z.DeviceID = some dev)
    (hget : env (poolOf dev) 5000000000 = .ok w) :
    buildAndRun lib b (.ZoneSetLevel zoneID A L) env =
      some ⟨wrapOutcome (drv.SetLevel L A w),
        [.poolGet (poolOf dev) 5000000000, .setLevel L A w, .poolRelease (poolOf dev) w]⟩ := by
  rw [← timeout_eq] at hget ⊢
  rcases hdrv with h | ⟨h, hl⟩
  · simp [buildAndRun, cmdBuilder.Build, h, hz, hd,
      getWriterAndExec_get_ok env dev _ w hget, callSetLevel, wrapOutcome]
  · simp [buildAndRun, cmdBuilder.Build, h, hl, hz, hd,
      getWriterAndExec_get_ok env dev _ w hget, callSetLevel, wrapOutcome]

/-- Witness for C1: level 42.5 on zone `z1` of hub `h1`. -/
theorem C1_zoneSetLevel_calls_witness :
    buildAndRun okLibrary builder1 (.ZoneSetLevel "z1" "a1" (85 / 2)) okPools =
      some ⟨wrapOutcome (okDriver.SetLevel (85 / 2) "a1" 3),
        [.poolGet (poolOf dimmer1) 5000000000, .setLevel (85 / 2) "a1" 3,
          .poolRelease (poolOf dimmer1) 3]⟩ :=
  C1_zoneSetLevel_calls okLibrary builder1 okDriver "z1" "a1" (85 / 2) okPools ⟨"z1", "d1"⟩
    dimmer1 3 (Or.inr ⟨rfl, rfl⟩) (by simp [builder1, sys1]) (by simp [builder1, sys1]) rfl

/-- C2: the method `Build` gives `ZoneTurnOn` the same result as `ZoneSetLevel` with level
100 and the same zone id and address, and `ZoneTurnOff` the same as `ZoneSetLevel` with
level 0: the emitters are equal, so every run makes the same calls on the same writer with
the same result.  On a registered zone whose pool hands out `w`, that one driver call is
`SetLevel(100, A, w)` for `ZoneTurnOn` and `SetLevel(0, A, w)` for `ZoneTurnOff`. -/
theorem C2_turnOn_turnOff_as_setLevel (lib : String → Except String Driver) (b : cmdBuilder)
    (zoneID A : String) :
    (b.Build lib (.ZoneTurnOn zoneID A)).1.func = (b.Build lib (.ZoneSetLevel zoneID A 100)).1.func
    ∧ (b.Build lib (.ZoneTurnOn zoneID A)).1.error
        = (b.Build lib (.ZoneSetLevel zoneID A 100)).1.error
    ∧ (b.Build lib (.ZoneTurnOff zoneID A)).1.func
        = (b.Build lib (.ZoneSetLevel zoneID A 0)).1.func
    ∧ (b.Build lib (.ZoneTurnOff zoneID A)).1.error
        = (b.Build lib (.ZoneSetLevel zoneID A 0)).1.error
    ∧ (∀ env, buildAndRun lib b (.ZoneTurnOn zoneID A) env
          = buildAndRun lib b (.ZoneSetLevel zoneID A 100) env)
    ∧ (∀ env, buildAndRun lib b (.ZoneTurnOff zoneID A) env
          = buildAndRun lib b (.ZoneSetLevel zoneID A 0) env)
    ∧ (∀ (drv : Driver) (env : PoolEnv) (z : Zone) (dev : Device) (w : Conn),
        (b.device = some drv ∨ (b.device = none ∧ lib b.ID = .ok drv)) →
        b.System.Zones zoneID = some z → b.System.Devices z.DeviceID = some dev →
        env (poolOf dev) 5000000000 = .ok w →
        buildAndRun lib b (.ZoneTurnOn zoneID A) env =
            some ⟨wrapOutcome (drv.SetLevel 100 A w),
              [.poolGet (poolOf dev) 5000000000, .setLevel 100 A w,
                .poolRelease (poolOf dev) w]⟩
        ∧ buildAndRun lib b (.ZoneTurnOff zoneID A) env =
            some ⟨wrapOutcome (drv.SetLevel 0 A w),
              [.poolGet (poolOf dev) 5000000000, .setLevel 0 A w,
                .poolRelease (poolOf dev) w]⟩) := by
  refine ⟨?_, ?_, ?_, ?_, ?_, ?_, ?_⟩
  · unfold cmdBuilder.Build; cases b.device <;> simp
  · unfold cmdBuilder.Build; cases b.device <;> simp
  · unfold cmdBuilder.Build; cases b.device <;> simp
  · unfold cmdBuilder.Build; cases b.device <;> simp
  · intro env; unfold buildAndRun cmdBuilder.Build
    cases b.device <;> simp
  · intro env; unfold buildAndRun cmdBuilder.Build
    cases b.device <;> simp
  · intro drv env z dev w hdrv hz hd hget
    rw [← timeout_eq] at hget ⊢
    rcases hdrv with h | ⟨h, hl⟩
    · constructor <;>
        simp [buildAndRun, cmdBuilder.Build, h, hz, hd,
          getWriterAndExec_get_ok env dev _ w hget, callSetLevel, wrapOutcome]
    · constructor <;>
        simp [buildAndRun, cmdBuilder.Build, h, hl, hz, hd,
          getWriterAndExec_get_ok env dev _ w hget, callSetLevel, wrapOutcome]

/-- Witness for C2: `ZoneTurnOn` on zone `z1` of hub `h1` calls `SetLevel(100, a1, 3)`. -/
theorem C2_turnOn_turnOff_as_setLevel_witness :
    buildAndRun okLibrary builder1 (.ZoneTurnOn "z1" "a1") okPools =
      some ⟨wrapOutcome (okDriver.SetLevel 100 "a1" 3),
        [.poolGet (poolOf dimmer1) 5000000000, .setLevel 100 "a1" 3,
          .poolRelease (poolOf dimmer1) 3]⟩ :=
  ((C2_turnOn_turnOff_as_setLevel okLibrary builder1 "z1" "a1").2.2.2.2.2.2
    okDriver okPools ⟨"z1", "d1"⟩ dimmer1 3 (Or.inr ⟨rfl, rfl⟩)
    (by simp [builder1, sys1]) (by simp [builder1, sys1]) rfl).1

/-- C3: once `Get` has succeeded with connection `c`, `getWriterAndExec` calls `Release`
once, with that same `c`, on the pool it was taken from, after everything the emitter `f`
did, whatever `f` returned (success, error, or a panic); the emitter's own calls are the
only ones in between, so unless the emitter releases something itself the run holds exactly
one `Release`.  If `Get` fails, the only call made is that `Get`: no `Release`. -/
theorem C3_release_after_emitter (env : PoolEnv) (d : Device) (f : Emitter) :
    (∀ c, env (poolOf d) 5000000000 = .ok c →
        (getWriterAndExec env (some d) f).trace =
          [.poolGet (poolOf d) 5000000000] ++ (f c).trace ++ [.poolRelease (poolOf d) c]
        ∧ ((∀ ev ∈ (f c).trace, ev.isRelease = false) →
            (getWriterAndExec env (some d) f).trace.countP Event.isRelease = 1))
    ∧ (∀ e, env (poolOf d) 5000000000 = .error e →
        (getWriterAndExec env (some d) f).trace = [.poolGet (poolOf d) 5000000000]
        ∧ (getWriterAndExec env (some d) f).trace.countP Event.isRelease = 0) := by
  rw [← timeout_eq]
  constructor
  · intro c h
    rw [getWriterAndExec_get_ok env d f c h]
    refine ⟨rfl, fun hf => ?_⟩
    have h0 : (f c).trace.countP Event.isRelease = 0 := by
      rw [List.countP_eq_zero]
      intro ev hev
      simp [hf ev hev]
    simp [List.countP_append, List.countP_cons, h0, Event.isRelease]
  · intro e h
    rw [getWriterAndExec_get_error env d f e h]
    simp [List.countP_cons, Event.isRelease]

/-- Witness for C3: an emitter that fails after one write, on a child of hub `h1`; and the
same emitter when the pool times out. -/
theorem C3_release_after_emitter_witness :
    (getWriterAndExec okPools (some dimmer1) (fun w => ⟨.err "nak", [.write w "x"]⟩)).trace =
        [.poolGet 7 5000000000, .write 3 "x", .poolRelease 7 3]
    ∧ (getWriterAndExec deadPools (some dimmer1) (fun w => ⟨.err "nak", [.write w "x"]⟩)).trace
        = [.poolGet 7 5000000000] :=
  ⟨((C3_release_after_emitter okPools dimmer1 (fun w => ⟨.err "nak", [.write w "x"]⟩)).1 3
      rfl).1,
   ((C3_release_after_emitter deadPools dimmer1 (fun w => ⟨.err "nak", [.write w "x"]⟩)).2
      "timeout" rfl).1⟩

/-- C4: `getWriterAndExec` asks the pool of `d.Hub` for the connection when `d` has a hub
parent and `d`'s own pool when it has none, and what that pool answers decides the run: if
it hands out `c`, the run is that `Get`, the emitter's calls on `c`, and `Release(c)` on
the same pool; if it fails, the run is that `Get` alone.  Apart from what the emitter
itself does, these are its only pool calls, so the pool of a child that has a hub is never
touched. -/
theorem C4_pool_of_hub (env : PoolEnv) (d : Device) (f : Emitter) :
    (∀ h, d.Hub = some h →
        (∀ c, env h.Connections 5000000000 = .ok c →
          (getWriterAndExec env (some d) f).trace =
            [.poolGet h.Connections 5000000000] ++ (f c).trace
              ++ [.poolRelease h.Connections c])
        ∧ (∀ e, env h.Connections 5000000000 = .error e →
          (getWriterAndExec env (some d) f).trace = [.poolGet h.Connections 5000000000]))
    ∧ (d.Hub = none →
        (∀ c, env d.Connections 5000000000 = .ok c →
          (getWriterAndExec env (some d) f).trace =
            [.poolGet d.Connections 5000000000] ++ (f c).trace
              ++ [.poolRelease d.Connections c])
        ∧ (∀ e, env d.Connections 5000000000 = .error e →
          (getWriterAndExec env (some d) f).trace = [.poolGet d.Connections 5000000000]))
    ∧ (∀ h, d.Hub = some h → d.Connections ≠ h.Connections →
        (∀ c, ∀ e ∈ (f c).trace, e.pool ≠ some d.Connections) →
        ∀ e ∈ (getWriterAndExec env (some d) f).trace, e.pool ≠ some d.Connections) := by
  rw [← timeout_eq]
  have key : ∀ p, poolOf d = p →
      (∀ c, env p (timeSecond * 5) = .ok c →
        (getWriterAndExec env (some d) f).trace =
          [.poolGet p (timeSecond * 5)] ++ (f c).trace ++ [.poolRelease p c])
      ∧ (∀ e, env p (timeSecond * 5) = .error e →
        (getWriterAndExec env (some d) f).trace = [.poolGet p (timeSecond * 5)]) := by
    intro p hp
    subst hp
    constructor
    · intro c hg
      rw [getWriterAndExec_get_ok env d f c hg]
    · intro e hg
      rw [getWriterAndExec_get_error env d f e hg]
  refine ⟨fun h hh => key _ (by simp [poolOf, hh]), fun hh => key _ (by simp [poolOf, hh]), ?_⟩
  intro h hh hne hf e he
  have hk := key h.Connections (by simp [poolOf, hh])
  cases hg : env h.Connections (timeSecond * 5) with
  | error x =>
    rw [hk.2 x hg] at he
    simp at he
    subst he
    simpa [Event.pool] using fun hc => hne hc.symm
  | ok c =>
    rw [hk.1 c hg] at he
    simp only [List.mem_append, List.mem_singleton] at he
    rcases he with (he | he) | he
    · subst he; simpa [Event.pool] using fun hc => hne hc.symm
    · exact hf c e he
    · subst he; simpa [Event.pool] using fun hc => hne hc.symm

/-- Witness for C4: the child `dimmer1` (own pool 9) of hub `hub1` (pool 7), with pools of
which only pool 7 hands out a connection: the run takes connection 3 from pool 7, lets the
emitter write on it and returns it to pool 7, and no call is on pool 9; the hub `hub1`
itself uses its own pool 7; and when every pool fails, the child's run is the one `Get` on
pool 7. -/
theorem C4_pool_of_hub_witness :
    (getWriterAndExec hubOnlyPools (some dimmer1) (fun w => ⟨.ok, [.write w "x"]⟩)).trace
        = [.poolGet 7 5000000000] ++ [.write 3 "x"] ++ [.poolRelease 7 3]
    ∧ (getWriterAndExec hubOnlyPools (some hub1) (fun w => ⟨.ok, [.write w "x"]⟩)).trace
        = [.poolGet 7 5000000000] ++ [.write 3 "x"] ++ [.poolRelease 7 3]
    ∧ (getWriterAndExec deadPools (some dimmer1) (fun w => ⟨.ok, [.write w "x"]⟩)).trace
        = [.poolGet 7 5000000000]
    ∧ ∀ e ∈ (getWriterAndExec hubOnlyPools (some dimmer1)
          (fun w => ⟨.ok, [.write w "x"]⟩)).trace,
        e.pool ≠ some 9 :=
  ⟨((C4_pool_of_hub hubOnlyPools dimmer1 (fun w => ⟨.ok, [.write w "x"]⟩)).1 hub1 rfl).1 3 rfl,
   ((C4_pool_of_hub hubOnlyPools hub1 (fun w => ⟨.ok, [.write w "x"]⟩)).2.1 rfl).1 3 rfl,
   ((C4_pool_of_hub deadPools dimmer1 (fun w => ⟨.ok, [.write w "x"]⟩)).1 hub1 rfl).2
      "timeout" rfl,
   (C4_pool_of_hub hubOnlyPools dimmer1 (fun w => ⟨.ok, [.write w "x"]⟩)).2.2 hub1 rfl
      (by decide) (by intro c e he; simp at he; subst he; simp [Event.pool])⟩

/-- C5: `getWriterAndExec` starts with one `Get` on the pool with a timeout of five seconds.
If that `Get` fails with error `e`, it returns the failure
`error connecting, pool returned err: e`, makes no other call (no second `Get`, no write),
and the emitter plays no part: the result is the same for every emitter. -/
theorem C5_get_once_five_seconds (env : PoolEnv) (d : Device) (f : Emitter) :
    (∃ rest, (getWriterAndExec env (some d) f).trace = .poolGet (poolOf d) 5000000000 :: rest
        ∧ ((∀ c, ∀ ev ∈ (f c).trace, ∀ p t, ev ≠ .poolGet p t) →
            ∀ ev ∈ rest, ∀ p t, ev ≠ .poolGet p t))
    ∧ (∀ e, env (poolOf d) 5000000000 = .error e →
        getWriterAndExec env (some d) f =
          ⟨.err ("error connecting, pool returned err: " ++ e), [.poolGet (poolOf d) 5000000000]⟩
        ∧ ∀ g : Emitter, getWriterAndExec env (some d) g = getWriterAndExec env (some d) f) := by
  rw [← timeout_eq]
  constructor
  · cases hg : env (poolOf d) (timeSecond * 5) with
    | error e =>
      refine ⟨[], ?_, ?_⟩
      · rw [getWriterAndExec_get_error env d f e hg]
      · intro _ ev hev; simp at hev
    | ok c =>
      refine ⟨(f c).trace ++ [.poolRelease (poolOf d) c], ?_, ?_⟩
      · rw [getWriterAndExec_get_ok env d f c hg]; simp
      · intro hf ev hev p t
        simp only [List.mem_append, List.mem_singleton] at hev
        rcases hev with hev | hev
        · exact hf c ev hev p t
        · subst hev; simp
  · intro e hg
    refine ⟨getWriterAndExec_get_error env d f e hg, fun g => ?_⟩
    rw [getWriterAndExec_get_error env d f e hg, getWriterAndExec_get_error env d g e hg]

/-- Witness for C5: the pool of `hub1` times out. -/
theorem C5_get_once_five_seconds_witness :
    getWriterAndExec deadPools (some hub1) (fun w => ⟨.ok, [.write w "x"]⟩) =
      ⟨.err ("error connecting, pool returned err: " ++ "timeout"),
        [.poolGet (poolOf hub1) 5000000000]⟩ :=
  ((C5_get_once_five_seconds deadPools hub1 (fun w => ⟨.ok, [.write w "x"]⟩)).2
    "timeout" rfl).1

/-- C6 (as stated, refuted): the claim has a failed emitter hand the connection back
flagged unhealthy and a successful one hand it back healthy.  In the code the only thing
the pool is told is `Release(conn)`: on hub `h1`, the run of a failing emitter and the run
of a succeeding one make exactly the same pool calls, so the pool cannot tell them apart
and has nothing to discard the connection on. -/
theorem C6_no_unhealthy_flag :
    (getWriterAndExec okPools (some hub1) (fun _ => ⟨.err "nak", []⟩)).outcome
        = .err "Failed to send command nak\n"
    ∧ (getWriterAndExec okPools (some hub1) (fun _ => ⟨.ok, []⟩)).outcome = .ok
    ∧ (getWriterAndExec okPools (some hub1) (fun _ => ⟨.err "nak", []⟩)).trace
        = [.poolGet 7 5000000000, .poolRelease 7 3]
    ∧ (getWriterAndExec okPools (some hub1) (fun _ => ⟨.err "nak", []⟩)).trace
        = (getWriterAndExec okPools (some hub1) (fun _ => ⟨.ok, []⟩)).trace := by
  refine ⟨?_, ?_, ?_, ?_⟩ <;> rfl

/-- C6 (amended): once `Get` has handed out `c`, an emitter error `m` makes
`getWriterAndExec` return the failure `Failed to send command m`, an emitter success makes it
return success, and in both cases the connection goes back through the same single call
`Release(c)` after the emitter's calls, with no health flag. -/
theorem C6_error_wrapped_plain_release (env : PoolEnv) (d : Device) (f : Emitter) (c : Conn)
    (hget : env (poolOf d) 5000000000 = .ok c) :
    (∀ m, (f c).outcome = .err m →
        (getWriterAndExec env (some d) f).outcome = .err ("Failed to send command " ++ m ++ "\n"))
    ∧ ((f c).outcome = .ok → (getWriterAndExec env (some d) f).outcome = .ok)
    ∧ (getWriterAndExec env (some d) f).trace =
        [.poolGet (poolOf d) 5000000000] ++ (f c).trace ++ [.poolRelease (poolOf d) c] := by
  rw [← timeout_eq] at hget ⊢
  rw [getWriterAndExec_get_ok env d f c hget]
  refine ⟨fun m hm => ?_, fun hok => ?_, rfl⟩
  · simp [hm]
  · simp [hok]

/-- Witness for C6 (amended): a failing emitter on hub `h1`. -/
theorem C6_error_wrapped_plain_release_witness :
    (getWriterAndExec okPools (some hub1) (fun w => ⟨.err "nak", [.write w "x"]⟩)).outcome
        = .err ("Failed to send command " ++ "nak" ++ "\n") :=
  (C6_error_wrapped_plain_release okPools hub1 (fun w => ⟨.err "nak", [.write w "x"]⟩) 3
    rfl).1 "nak" rfl

/-- C7: when the vendor handle is there or can be constructed, `Build` returns an emitter
and no error exactly for `ZoneSetLevel`, `ZoneTurnOn`, `ZoneTurnOff`, `ButtonPress` and
`ButtonRelease`; for any other command (`SceneSet`) it returns no emitter and the error
`unsupported command type`; and it never returns neither emitter nor error. -/
theorem C7_build_supported_iff (lib : String → Except String Driver) (b : cmdBuilder)
    (c : Command)
    (hdrv : b.device.isSome ∨ ∃ drv, lib b.ID = .ok drv) :
    (((b.Build lib c).1.func.isSome ∧ (b.Build lib c).1.error = none) ↔ supported c = true)
    ∧ (supported c = false →
        (b.Build lib c).1.func.isNone ∧ (b.Build lib c).1.error = some "unsupported command type")
    ∧ ¬ ((b.Build lib c).1.func.isNone ∧ (b.Build lib c).1.error = none) := by
  cases hb : b.device with
  | some drv => cases c <;> simp [cmdBuilder.Build, hb, supported]
  | none =>
    rcases hdrv with h | ⟨drv, h⟩
    · simp [hb] at h
    · cases c <;> simp [cmdBuilder.Build, hb, h, supported]

/-- Witness for C7: `SceneSet` on a builder whose handle can be constructed. -/
theorem C7_build_supported_iff_witness :
    (builder1.Build okLibrary (.SceneSet "s1")).1.func.isNone
    ∧ (builder1.Build okLibrary (.SceneSet "s1")).1.error = some "unsupported command type" :=
  (C7_build_supported_iff okLibrary builder1 (.SceneSet "s1") (Or.inr ⟨okDriver, rfl⟩)).2.1 rfl

/-- C8 (the code at the failing inputs): on registry `sys1`, with working pools and driver,
the emitter built for a zone command with an unknown zone id, for a zone command whose zone
names an unregistered device, and for a button command with an unknown device id, ends in
a nil-pointer panic before any pool call, not in a returned failure. -/
theorem C8_missing_entity_panics :
    buildAndRun okLibrary builder1 (.ZoneSetLevel "nope" "a1" 50) okPools
        = some ⟨.panic nilDeref, []⟩
    ∧ buildAndRun okLibrary builder1 (.ZoneTurnOn "nope" "a1") okPools
        = some ⟨.panic nilDeref, []⟩
    ∧ buildAndRun okLibrary builder1 (.ZoneTurnOff "nope" "a1") okPools
        = some ⟨.panic nilDeref, []⟩
    ∧ buildAndRun okLibrary builder1 (.ZoneSetLevel "z2" "a1" 50) okPools
        = some ⟨.panic nilDeref, []⟩
    ∧ buildAndRun okLibrary builder1 (.ButtonPress "nope" "a1" "b1") okPools
        = some ⟨.panic nilDeref, []⟩
    ∧ buildAndRun okLibrary builder1 (.ButtonRelease "nope" "a1" "b1") okPools
        = some ⟨.panic nilDeref, []⟩ := by
  refine ⟨?_, ?_, ?_, ?_, ?_, ?_⟩ <;> rfl

/-! ## The recipe supervisor -/

/-- Once the loop has been left, the supervisor does nothing more. -/
theorem supervise_exited (r : Recipe) (fireChan : Chan) (sched : List Ready) (s : Supervisor)
    (h : s.exited = true) : r.supervise fireChan s sched = s := by
  induction sched with
  | nil => rfl
  | cons m rest ih =>
    have hs : r.step fireChan s m = s := by simp [Recipe.step, h]
    simpa [Recipe.supervise, List.foldl_cons, hs] using ih

/-- Unfolding of the supervisor on a non-empty schedule. -/
theorem supervise_cons (r : Recipe) (fireChan : Chan) (s : Supervisor) (m : Ready)
    (rest : List Ready) :
    r.supervise fireChan s (m :: rest) = r.supervise fireChan (r.step fireChan s m) rest := rfl

/-- The break check leaves the log alone. -/
theorem checkBreak_log (s : Supervisor) : s.checkBreak.log = s.log := by
  unfold Supervisor.checkBreak
  cases s.doneChan <;> rfl

/-- A step keeps the log invariant. -/
theorem step_logOk (r : Recipe) (fireChan : Chan) (s : Supervisor) (m : Ready)
    (h : r.logOk s.log) : r.logOk (r.step fireChan s m).log := by
  unfold Recipe.step
  split
  · exact h
  · cases m with
    | fire =>
      cases fireChan with
      | none => exact h
      | some a =>
        simp only [checkBreak_log]
        obtain ⟨h1, h2⟩ := h
        refine ⟨?_, ?_⟩
        · simp [List.countP_append, List.countP_cons, h1, RecipeEvent.isExecute,
            RecipeEvent.isRecvFire, Recipe.actionTask]
        · intro e he hx
          simp only [List.mem_append, List.mem_cons, List.mem_singleton, List.not_mem_nil,
            or_false] at he
          rcases he with he | he | he | he
          · exact h2 e he hx
          · subst he; simp [RecipeEvent.isExecute] at hx
          · subst he; simp [RecipeEvent.isExecute] at hx
          · exact he
    | done =>
      cases hd : s.doneChan with
      | none => simpa [hd] using h
      | some b =>
        simp only [checkBreak_log]
        obtain ⟨h1, h2⟩ := h
        refine ⟨?_, ?_⟩
        · simp [List.countP_append, List.countP_cons, h1, RecipeEvent.isExecute,
            RecipeEvent.isRecvFire]
        · intro e he hx
          simp only [List.mem_append, List.mem_singleton] at he
          rcases he with he | he
          · exact h2 e he hx
          · subst he; simp [RecipeEvent.isExecute] at hx

/-- The supervisor keeps the log invariant. -/
theorem supervise_logOk (r : Recipe) (fireChan : Chan) (sched : List Ready) (s : Supervisor)
    (h : r.logOk s.log) : r.logOk (r.supervise fireChan s sched).log := by
  induction sched generalizing s with
  | nil => exact h
  | cons m rest ih =>
    rw [supervise_cons]
    exact ih _ (step_logOk r fireChan s m h)

/-- With both channels live and the loop running, the supervisor executes the action once
per firing offered before the first done. -/
theorem supervise_execute_count (r : Recipe) (a b : Nat) (sched : List Ready) (s : Supervisor)
    (hx : s.exited = false) (hd : s.doneChan = some b) :
    (r.supervise (some a) s sched).log.countP RecipeEvent.isExecute
      = s.log.countP RecipeEvent.isExecute + (sched.takeWhile (· = Ready.fire)).length := by
  induction sched generalizing s with
  | nil => simp [Recipe.supervise]
  | cons m rest ih =>
    rw [supervise_cons]
    cases m with
    | fire =>
      have hs : r.step (some a) s .fire =
          { s with log := s.log ++ [.recvFire,
              .printf ("Recipe: " ++ r.Name ++ " - trigger fired\n"), r.actionTask] } := by
        simp [Recipe.step, hx, Supervisor.checkBreak, hd]
      rw [hs, ih _ (by exact hx) (by exact hd)]
      simp [List.countP_append, List.countP_cons, RecipeEvent.isExecute, Recipe.actionTask]
      omega
    | done =>
      have hs : r.step (some a) s .done =
          { s with doneChan := none, log := s.log ++ [.recvDone], exited := true } := by
        simp [Recipe.step, hx, Supervisor.checkBreak, hd]
      rw [hs, supervise_exited r (some a) rest _ rfl]
      simp [List.countP_append, List.countP_cons, RecipeEvent.isExecute]

/-- C9: for every recipe (whatever its action returns) and every schedule, the supervisor
started by `Recipe.Start` invokes `Action.Execute` once per firing it receives: the log has
as many `execute` events as `recvFire` events, each `execute` is the call
`r.Action.Execute(r.system)`, and a failing action changes nothing.  With both channels
live this number is the number of firings offered before the first done. -/
theorem C9_execute_once_per_firing (r : Recipe) (sched : List Ready) :
    (r.Start sched).2.log.countP RecipeEvent.isExecute
        = (r.Start sched).2.log.countP RecipeEvent.isRecvFire
    ∧ (∀ e ∈ (r.Start sched).2.log, e.isExecute = true →
        e = .execute r.system (r.Action.Execute r.system))
    ∧ (∀ a b, r.Trigger.Start = (some a, some b) →
        (r.Start sched).2.log.countP RecipeEvent.isExecute
          = (sched.takeWhile (· = Ready.fire)).length) := by
  have h := supervise_logOk r r.Trigger.Start.1 sched ⟨r.Trigger.Start.2, [], false⟩
    ⟨rfl, by simp⟩
  refine ⟨h.1, h.2, ?_⟩
  intro a b hab
  have := supervise_execute_count r a b sched ⟨some b, [], false⟩ rfl rfl
  simpa [Recipe.Start, hab] using this

/-- Witness for C9: a failing action, two firings, then done, then a late firing. -/
theorem C9_execute_once_per_firing_witness :
    (recipe1.Start [.fire, .fire, .done, .fire]).2.log.countP RecipeEvent.isExecute
      = ([Ready.fire, .fire, .done, .fire].takeWhile (· = Ready.fire)).length :=
  (C9_execute_once_per_firing recipe1 [.fire, .fire, .done, .fire]).2.2 1 2 rfl

/-- While the done channel is live and the loop running, the loop is left exactly when a
done is offered. -/
theorem supervise_exited_iff (r : Recipe) (fireChan : Chan) (b : Nat) (sched : List Ready)
    (s : Supervisor) (hx : s.exited = false) (hd : s.doneChan = some b) :
    (r.supervise fireChan s sched).exited = true ↔ Ready.done ∈ sched := by
  induction sched generalizing s with
  | nil => simp [Recipe.supervise, hx]
  | cons m rest ih =>
    rw [supervise_cons]
    cases m with
    | fire =>
      cases fireChan with
      | none =>
        have hs : r.step none s .fire = s := by simp [Recipe.step]
        rw [hs, ih s hx hd]; simp
      | some a =>
        have hs : r.step (some a) s .fire =
            { s with log := s.log ++ [.recvFire,
                .printf ("Recipe: " ++ r.Name ++ " - trigger fired\n"), r.actionTask] } := by
          simp [Recipe.step, hx, Supervisor.checkBreak, hd]
        rw [hs, ih _ (by exact hx) (by exact hd)]; simp
    | done =>
      have hs : r.step fireChan s .done =
          { s with doneChan := none, log := s.log ++ [.recvDone], exited := true } := by
        simp [Recipe.step, hx, Supervisor.checkBreak, hd]
      rw [hs, supervise_exited r fireChan rest _ rfl]
      simp

/-- While both channels are live and no done is offered, every firing offered is
received. -/
theorem supervise_recvFire_count (r : Recipe) (a b : Nat) (sched : List Ready)
    (s : Supervisor) (hx : s.exited = false) (hd : s.doneChan = some b)
    (hn : Ready.done ∉ sched) :
    (r.supervise (some a) s sched).log.countP RecipeEvent.isRecvFire
      = s.log.countP RecipeEvent.isRecvFire + sched.length := by
  induction sched generalizing s with
  | nil => simp [Recipe.supervise]
  | cons m rest ih =>
    rw [supervise_cons]
    cases m with
    | fire =>
      have hs : r.step (some a) s .fire =
          { s with log := s.log ++ [.recvFire,
              .printf ("Recipe: " ++ r.Name ++ " - trigger fired\n"), r.actionTask] } := by
        simp [Recipe.step, hx, Supervisor.checkBreak, hd]
      rw [hs, ih _ (by exact hx) (by exact hd) (fun h => hn (List.mem_cons_of_mem _ h))]
      simp [List.countP_append, List.countP_cons, RecipeEvent.isRecvFire, Recipe.actionTask]
      omega
    | done => exact absurd (List.mem_cons_self _ _) hn

/-- C10 (as stated, refuted): a trigger whose `Start` returns a live fire channel and a nil
done channel.  Before anything is received the loop is running; the first firing is
received and the loop is left, though no done was offered or received; the second firing
is never consumed. -/
theorem C10_nil_done_exits_on_firing :
    (recipe2.Start []).2.exited = false
    ∧ (recipe2.Start [.fire]).2.exited = true
    ∧ (recipe2.Start [.fire]).2.log.any RecipeEvent.isRecvDone = false
    ∧ (recipe2.Start [.fire, .fire]).2.log.countP RecipeEvent.isRecvFire = 1 := by
  refine ⟨?_, ?_, ?_, ?_⟩ <;> rfl

/-- C10 (amended): when the done channel that the trigger's `Start` returns is not nil, the
supervisor loop is left exactly when a done is offered: firings alone never end it, a done
always does.  If the fire channel is live too, then as long as no done is offered every
firing offered is received. -/
theorem C10_exits_exactly_on_done (r : Recipe) (sched : List Ready) (b : Nat)
    (hd : r.Trigger.Start.2 = some b) :
    ((r.Start sched).2.exited = true ↔ Ready.done ∈ sched)
    ∧ (∀ a, r.Trigger.Start.1 = some a → Ready.done ∉ sched →
        (r.Start sched).2.exited = false
        ∧ (r.Start sched).2.log.countP RecipeEvent.isRecvFire = sched.length) := by
  have h1 := supervise_exited_iff r r.Trigger.Start.1 b sched ⟨r.Trigger.Start.2, [], false⟩
    rfl hd
  refine ⟨h1, ?_⟩
  intro a ha hn
  constructor
  · cases hx : (r.Start sched).2.exited with
    | false => rfl
    | true => exact absurd (h1.mp hx) hn
  · have := supervise_recvFire_count r a b sched ⟨r.Trigger.Start.2, [], false⟩ rfl hd hn
    simpa [Recipe.Start, ha] using this

/-- Witness for C10 (amended): two firings and then a done on live channels. -/
theorem C10_exits_exactly_on_done_witness :
    ((recipe1.Start [.fire, .fire, .done]).2.exited = true
        ↔ Ready.done ∈ [Ready.fire, .fire, .done])
    ∧ (recipe1.Start [.fire, .fire]).2.exited = false :=
  ⟨(C10_exits_exactly_on_done recipe1 [.fire, .fire, .done] 2 rfl).1,
   ((C10_exits_exactly_on_done recipe1 [.fire, .fire] 2 rfl).2 1 rfl (by decide)).1⟩

/-! ## The recipe handlers and `system.Save` -/

/-- The create handler bubbles a `Save` error: when the body decodes to a recipe and `Save`
fails, the status is 500, no success body is written, and `Save` was called once. -/
theorem apiRecipesHandlerPost_save_error (env : HandlerEnv) (body : String) (data : JsonMap)
    (recipe : Recipe) (e : String)
    (hb : env.readAll = .ok body) (hj : env.unmarshalMap body = .ok data)
    (hr : env.recipeManager.UnmarshalNewRecipe data = .ok recipe) (hs : env.Save = some e) :
    responseStatus (apiRecipesHandlerPost env) = StatusInternalServerError
    ∧ (apiRecipesHandlerPost env).countP HttpEvent.isSuccessBody = 0
    ∧ (apiRecipesHandlerPost env).countP HttpEvent.isSave = 1 := by
  simp [apiRecipesHandlerPost, hb, hj, hr, hs, responseStatus, HttpEvent.isSuccessBody,
    HttpEvent.isSave, List.countP_cons]

/-- The enable handler drops a `Save` error: when the recipe exists and `EnableRecipe`
succeeds, the response is the success response whatever `Save` returns. -/
theorem apiRecipeHandler_save_ignored (env : HandlerEnv) (body : String) (enabled : Bool)
    (recipe : Recipe)
    (hb : env.readAll = .ok body) (hj : env.unmarshalEnabled body = .ok enabled)
    (hr : env.recipeManager.RecipeByID (env.vars "id") = some recipe)
    (he : env.recipeManager.EnableRecipe recipe enabled = none) :
    apiRecipeHandler env =
      [.enableRecipe recipe.ID enabled, .save,
        .setHeader "Content-Type" "application/json; charset=utf-8", .encode .empty] := by
  simp [apiRecipeHandler, hb, hj, hr, he]

/-- The delete handler drops a `Save` error: when the recipe exists and `DeleteRecipe`
succeeds, the response is the success response whatever `Save` returns. -/
theorem apiRecipeHandlerDelete_save_ignored (env : HandlerEnv) (recipe : Recipe)
    (hr : env.recipeManager.RecipeByID (env.vars "id") = some recipe)
    (he : env.recipeManager.DeleteRecipe recipe = none) :
    apiRecipeHandlerDelete env =
      [.deleteRecipe recipe.ID, .save,
        .setHeader "Content-Type" "application/json; charset=utf-8", .encode .empty] := by
  simp [apiRecipeHandlerDelete, hr, he]

/-- C11 (the code at the failing input): a request on recipe `r1` whose mutation succeeds
while `system.Save` returns the error `disk full`.  The create handler answers 500 without
a success body.  The enable handler and the delete handler call `Save` once too, but answer
status 200 with the success body: the `Save` error is not bubbled. -/
theorem C11_save_error_dropped :
    (apiRecipesHandlerPost saveFails =
        [.registerAndStart "r1", .save, .println "disk full", .writeHeader 500]
      ∧ responseStatus (apiRecipesHandlerPost saveFails) = 500)
    ∧ (apiRecipeHandler saveFails =
        [.enableRecipe "r1" true, .save,
          .setHeader "Content-Type" "application/json; charset=utf-8", .encode .empty]
      ∧ responseStatus (apiRecipeHandler saveFails) = 200
      ∧ (apiRecipeHandler saveFails).countP HttpEvent.isSuccessBody = 1
      ∧ (apiRecipeHandler saveFails).countP HttpEvent.isSave = 1)
    ∧ (apiRecipeHandlerDelete saveFails =
        [.deleteRecipe "r1", .save,
          .setHeader "Content-Type" "application/json; charset=utf-8", .encode .empty]
      ∧ responseStatus (apiRecipeHandlerDelete saveFails) = 200
      ∧ (apiRecipeHandlerDelete saveFails).countP HttpEvent.isSuccessBody = 1
      ∧ (apiRecipeHandlerDelete saveFails).countP HttpEvent.isSave = 1) := by
  refine ⟨⟨?_, ?_⟩, ⟨?_, ?_, ?_, ?_⟩, ⟨?_, ?_, ?_, ?_⟩⟩ <;> rfl

/-! ## More on the lutron builder -/

/-- C12: the emitter `Build` returns for `ButtonRelease` is the one it returns for
`ButtonPress` with the same device id, device address and button address: every run is the
same, and on a registered device whose pool hands out `w` the one driver call is
`ButtonPress(deviceAddress, buttonAddress, w)`, not a release operation. -/
theorem C12_buttonRelease_calls_buttonPress (lib : String → Except String Driver)
    (b : cmdBuilder) (deviceID deviceAddress buttonAddress : String) :
    (b.Build lib (.ButtonRelease deviceID deviceAddress buttonAddress)).1.func
        = (b.Build lib (.ButtonPress deviceID deviceAddress buttonAddress)).1.func
    ∧ (b.Build lib (.ButtonRelease deviceID deviceAddress buttonAddress)).1.error
        = (b.Build lib (.ButtonPress deviceID deviceAddress buttonAddress)).1.error
    ∧ (∀ env, buildAndRun lib b (.ButtonRelease deviceID deviceAddress buttonAddress) env
          = buildAndRun lib b (.ButtonPress deviceID deviceAddress buttonAddress) env)
    ∧ (∀ (drv : Driver) (env : PoolEnv) (dev : Device) (w : Conn),
        (b.device = some drv ∨ (b.device = none ∧ lib b.ID = .ok drv)) →
        b.System.Devices deviceID = some dev →
        env (poolOf dev) 5000000000 = .ok w →
        buildAndRun lib b (.ButtonRelease deviceID deviceAddress buttonAddress) env =
          some ⟨wrapOutcome (drv.ButtonPress deviceAddress buttonAddress w),
            [.poolGet (poolOf dev) 5000000000, .buttonPress deviceAddress buttonAddress w,
              .poolRelease (poolOf dev) w]⟩) := by
  refine ⟨?_, ?_, ?_, ?_⟩
  · unfold cmdBuilder.Build; cases b.device <;> simp
  · unfold cmdBuilder.Build; cases b.device <;> simp
  · intro env; unfold buildAndRun cmdBuilder.Build
    cases b.device <;> simp
  · intro drv env dev w hdrv hd hget
    rw [← timeout_eq] at hget ⊢
    rcases hdrv with h | ⟨h, hl⟩
    · simp [buildAndRun, cmdBuilder.Build, h, hd,
        getWriterAndExec_get_ok env dev _ w hget, callButtonPress, wrapOutcome]
    · simp [buildAndRun, cmdBuilder.Build, h, hl, hd,
        getWriterAndExec_get_ok env dev _ w hget, callButtonPress, wrapOutcome]

/-- Witness for C12: `ButtonRelease` on device `h1` calls `ButtonPress(a1, b1, 3)`. -/
theorem C12_buttonRelease_calls_buttonPress_witness :
    buildAndRun okLibrary builder1 (.ButtonRelease "h1" "a1" "b1") okPools =
      some ⟨wrapOutcome (okDriver.ButtonPress "a1" "b1" 3),
        [.poolGet (poolOf hub1) 5000000000, .buttonPress "a1" "b1" 3,
          .poolRelease (poolOf hub1) 3]⟩ :=
  (C12_buttonRelease_calls_buttonPress okLibrary builder1 "h1" "a1" "b1").2.2.2
    okDriver okPools hub1 3 (Or.inr ⟨rfl, rfl⟩) (by simp [builder1, sys1]) rfl

/-- A builder that holds a handle is left as it is by `Build`, and the library is not
consulted. -/
theorem build_with_handle (lib lib2 : String → Except String Driver) (b : cmdBuilder)
    (drv : Driver) (c : Command) (h : b.device = some drv) :
    (b.Build lib c).2 = b ∧ (b.Build lib c).1.func = (b.Build lib2 c).1.func
      ∧ (b.Build lib c).1.error = (b.Build lib2 c).1.error := by
  cases c <;> simp [cmdBuilder.Build, h]

/-- C13: the vendor handle is constructed lazily from the model id `l-bdgpro2-wh`.  On a
builder without handle, `Build` consults the library at that id only and before looking at
the command: a library error is returned as the error, with no emitter and the builder
unchanged (so a later `Build` asks again, and succeeds if the library then does); a library
success is stored, whatever the command.  On a builder with a handle, `Build` leaves the
builder as it is and its result does not depend on the library, also over any sequence of
later commands. -/
theorem C13_lazy_handle (lib : String → Except String Driver) (b : cmdBuilder) (c : Command) :
    b.ID = "l-bdgpro2-wh"
    ∧ (b.device = none →
        (∀ lib2 : String → Except String Driver, lib2 "l-bdgpro2-wh" = lib "l-bdgpro2-wh" →
            (b.Build lib2 c).1.func = (b.Build lib c).1.func
            ∧ (b.Build lib2 c).1.error = (b.Build lib c).1.error
            ∧ (b.Build lib2 c).2 = (b.Build lib c).2)
        ∧ (∀ e, lib "l-bdgpro2-wh" = .error e →
            (b.Build lib c).1.func.isNone ∧ (b.Build lib c).1.error = some e
            ∧ (b.Build lib c).2 = b
            ∧ ∀ (lib2 : String → Except String Driver) (drv : Driver) (c2 : Command),
                lib2 "l-bdgpro2-wh" = .ok drv →
                ((b.Build lib c).2.Build lib2 c2).2.device = some drv)
        ∧ (∀ drv, lib "l-bdgpro2-wh" = .ok drv →
            (b.Build lib c).2.device = some drv
            ∧ (b.Build lib c).2.System = b.System))
    ∧ (∀ drv, b.device = some drv →
        (b.Build lib c).2 = b
        ∧ (∀ lib2 : String → Except String Driver,
            (b.Build lib2 c).1.func = (b.Build lib c).1.func
            ∧ (b.Build lib2 c).1.error = (b.Build lib c).1.error)
        ∧ ∀ (lib2 : String → Except String Driver) (cs : List Command),
            cs.foldl (fun b1 c1 => (b1.Build lib2 c1).2) b = b) := by
  refine ⟨rfl, ?_, ?_⟩
  · intro hn
    refine ⟨?_, ?_, ?_⟩
    · intro lib2 h2
      cases c <;> simp [cmdBuilder.Build, hn, cmdBuilder.ID, h2]
    · intro e he
      refine ⟨?_, ?_, ?_, ?_⟩
      · cases c <;> simp [cmdBuilder.Build, hn, cmdBuilder.ID, he]
      · cases c <;> simp [cmdBuilder.Build, hn, cmdBuilder.ID, he]
      · cases c <;> simp [cmdBuilder.Build, hn, cmdBuilder.ID, he]
      · intro lib2 drv c2 h2
        have hb : (b.Build lib c).2 = b := by
          cases c <;> simp [cmdBuilder.Build, hn, cmdBuilder.ID, he]
        rw [hb]
        cases c2 <;> simp [cmdBuilder.Build, hn, cmdBuilder.ID, h2]
    · intro drv hd
      constructor <;> cases c <;> simp [cmdBuilder.Build, hn, cmdBuilder.ID, hd]
  · intro drv hd
    refine ⟨(build_with_handle lib lib b drv c hd).1, ?_, ?_⟩
    · intro lib2
      exact ⟨(build_with_handle lib2 lib b drv c hd).2.1,
        (build_with_handle lib2 lib b drv c hd).2.2⟩
    · intro lib2 cs
      induction cs with
      | nil => rfl
      | cons c1 rest ih =>
        rw [List.foldl_cons, (build_with_handle lib2 lib2 b drv c1 hd).1]
        exact ih

/-- Witness for C13: a library that knows no model gives the error and no emitter; a
library that knows the model has its handle stored even for `SceneSet`. -/
theorem C13_lazy_handle_witness :
    ((builder1.Build (fun _ => .error "unknown model") (.SceneSet "s1")).1.func.isNone
      ∧ (builder1.Build (fun _ => .error "unknown model") (.SceneSet "s1")).1.error
          = some "unknown model")
    ∧ (builder1.Build okLibrary (.SceneSet "s1")).2.System = sys1 :=
  ⟨⟨(((C13_lazy_handle (fun _ => .error "unknown model") builder1 (.SceneSet "s1")).2.1
        rfl).2.1 "unknown model" rfl).1,
    (((C13_lazy_handle (fun _ => .error "unknown model") builder1 (.SceneSet "s1")).2.1
        rfl).2.1 "unknown model" rfl).2.1⟩,
   (((C13_lazy_handle okLibrary builder1 (.SceneSet "s1")).2.1 rfl).2.2 okDriver rfl).2⟩

/-! ## The classification of discovered devices -/

/-- The first loop passes over a child. -/
theorem hubPass_child (I : Heap → Ptr → Option Ptr) (s : Discovery) (d : Ptr)
    (h : isHub s.heap d = false) : hubPass I s d = s := by
  unfold isHub at h
  unfold hubPass
  cases hd : (s.heap d).Hub with
  | none => simp [hd] at h
  | some x => rfl

/-- The first loop on a hub device: one classifying assignment, as expected, in an
unchanged heap. -/
theorem hubPass_hub (I : Heap → Ptr → Option Ptr) (s : Discovery) (d : Ptr)
    (h : isHub s.heap d = true) :
    hubPass I s d =
      { heap := s.heap
        inputDevices := (classifyAt I s.heap d).applyNew s.inputDevices
        dupeDevices := (classifyAt I s.heap d).applyDupe s.dupeDevices
        deviceToDupe := dupeStep I s.heap s.deviceToDupe d
        log := s.log ++ [classifyAt I s.heap d] } := by
  unfold isHub at h
  unfold hubPass classifyAt dupeStep
  cases hd : (s.heap d).Hub with
  | some x => simp [hd] at h
  | none =>
    cases hi : I s.heap d with
    | none => simp [Classified.applyNew, Classified.applyDupe]
    | some e => simp [Classified.applyNew, Classified.applyDupe]

/-- The second loop passes over a hub device. -/
theorem childPass_hub (I : Heap → Ptr → Option Ptr) (s : Discovery) (d : Ptr)
    (h : isChild s.heap d = false) : childPass I s d = s := by
  unfold isChild at h
  unfold childPass
  cases hd : (s.heap d).Hub with
  | none => rfl
  | some x => simp [hd] at h

/-- The second loop on a child: the patch, then one classifying assignment, as expected. -/
theorem childPass_child (I : Heap → Ptr → Option Ptr) (s : Discovery) (d : Ptr)
    (h : isChild s.heap d = true) :
    childPass I s d =
      { heap := patched s.deviceToDupe s.heap d
        inputDevices :=
          (classifyAt I (patched s.deviceToDupe s.heap d) d).applyNew s.inputDevices
        dupeDevices :=
          (classifyAt I (patched s.deviceToDupe s.heap d) d).applyDupe s.dupeDevices
        deviceToDupe := s.deviceToDupe
        log := s.log ++ [classifyAt I (patched s.deviceToDupe s.heap d) d] } := by
  unfold isChild at h
  unfold childPass classifyAt patched
  cases hd : (s.heap d).Hub with
  | none => simp [hd] at h
  | some x =>
    simp only []
    cases hi : I (match s.deviceToDupe (s.heap x).ID with
        | some dupeDevice => s.heap.setHub d dupeDevice
        | none => s.heap) d with
    | none => simp [Classified.applyNew, Classified.applyDupe]
    | some e => simp [Classified.applyNew, Classified.applyDupe]

/-- Patching a child leaves every device a hub or a child as it was. -/
theorem isChild_patched (dtd : DeviceMap) (heap : Heap) (p q : Ptr) :
    isChild (patched dtd heap p) q = isChild heap q := by
  unfold patched
  cases hd : (heap p).Hub with
  | none => rfl
  | some x =>
    simp only []
    cases dtd (heap x).ID with
    | none => rfl
    | some e =>
      unfold isChild Heap.setHub
      by_cases hq : q = p
      · subst hq; simp [hd]
      · simp [hq]

/-- The first loop as a whole, from any state. -/
theorem hubLoop_spec (I : Heap → Ptr → Option Ptr) (ds : List Ptr) (s : Discovery) :
    (ds.foldl (hubPass I) s).heap = s.heap
    ∧ (ds.foldl (hubPass I) s).log
        = s.log ++ (ds.filter (isHub s.heap)).map (classifyAt I s.heap)
    ∧ (ds.foldl (hubPass I) s).deviceToDupe
        = (ds.filter (isHub s.heap)).foldl (dupeStep I s.heap) s.deviceToDupe
    ∧ (ds.foldl (hubPass I) s).inputDevices
        = ((ds.filter (isHub s.heap)).map (classifyAt I s.heap)).foldl
            Classified.applyNew s.inputDevices
    ∧ (ds.foldl (hubPass I) s).dupeDevices
        = ((ds.filter (isHub s.heap)).map (classifyAt I s.heap)).foldl
            Classified.applyDupe s.dupeDevices := by
  induction ds generalizing s with
  | nil => simp
  | cons d rest ih =>
    rw [List.foldl_cons]
    cases hd : isHub s.heap d with
    | false =>
      rw [hubPass_child I s d hd]
      simpa [List.filter_cons, hd] using ih s
    | true =>
      have hs := hubPass_hub I s d hd
      have := ih (hubPass I s d)
      rw [hs] at this ⊢
      simpa [List.filter_cons, hd] using this

/-- The second loop as a whole, from any state. -/
theorem childLoop_spec (I : Heap → Ptr → Option Ptr) (ds : List Ptr) (s : Discovery) :
    (ds.foldl (childPass I) s).deviceToDupe = s.deviceToDupe
    ∧ (ds.foldl (childPass I) s).heap
        = patchedAll s.deviceToDupe s.heap (ds.filter (isChild s.heap))
    ∧ (ds.foldl (childPass I) s).log
        = s.log ++ childLog I s.deviceToDupe s.heap (ds.filter (isChild s.heap))
    ∧ (ds.foldl (childPass I) s).inputDevices
        = (childLog I s.deviceToDupe s.heap (ds.filter (isChild s.heap))).foldl
            Classified.applyNew s.inputDevices
    ∧ (ds.foldl (childPass I) s).dupeDevices
        = (childLog I s.deviceToDupe s.heap (ds.filter (isChild s.heap))).foldl
            Classified.applyDupe s.dupeDevices := by
  induction ds generalizing s with
  | nil => simp [childLog, patchedAll]
  | cons d rest ih =>
    rw [List.foldl_cons]
    cases hd : isChild s.heap d with
    | false =>
      rw [childPass_hub I s d hd]
      simpa [List.filter_cons, hd] using ih s
    | true =>
      have hs := childPass_child I s d hd
      have := ih (childPass I s d)
      rw [hs] at this ⊢
      have hf : isChild (patched s.deviceToDupe s.heap d) = isChild s.heap := by
        funext q; exact isChild_patched _ _ _ _
      simp only [hf] at this
      simpa [List.filter_cons, hd, childLog, patchedAll] using this

/-- The expected child classifications are about the children, in order. -/
theorem childLog_device (I : Heap → Ptr → Option Ptr) (dtd : DeviceMap) (ps : List Ptr)
    (heap : Heap) : (childLog I dtd heap ps).map Classified.device = ps := by
  induction ps generalizing heap with
  | nil => rfl
  | cons p rest ih =>
    simp only [childLog, List.map_cons, ih]
    unfold classifyAt
    cases I (patched dtd heap p) p <;> rfl

/-- The expected hub classification is about the hub. -/
theorem classifyAt_device (I : Heap → Ptr → Option Ptr) (heap : Heap) (p : Ptr) :
    (classifyAt I heap p).device = p := by
  unfold classifyAt
  cases I heap p <;> rfl

/-- Hub devices that are not duplicates under id `k` leave the entry `k` alone. -/
theorem dupeStep_foldl_other (I : Heap → Ptr → Option Ptr) (heap : Heap) (k : String)
    (hubs : List Ptr) (m : DeviceMap)
    (h : ∀ p ∈ hubs, (heap p).ID = k → I heap p = none) :
    (hubs.foldl (dupeStep I heap) m) k = m k := by
  induction hubs generalizing m with
  | nil => rfl
  | cons a rest ih =>
    rw [List.foldl_cons, ih _ (fun p hp => h p (List.mem_cons_of_mem _ hp))]
    unfold dupeStep
    cases hi : I heap a with
    | none => rfl
    | some e =>
      have hne : ¬ k = (heap a).ID := by
        intro hk
        have := h a (List.mem_cons_self _ _) hk.symm
        rw [hi] at this
        exact absurd this (by simp)
      simp [DeviceMap.set, hne]

/-- If some hub device with id `k` is a duplicate, the entry `k` holds the existing device
reported for a duplicate hub with that id. -/
theorem dupeStep_foldl_some (I : Heap → Ptr → Option Ptr) (heap : Heap) (k : String)
    (hubs : List Ptr) (m : DeviceMap)
    (h : ∃ p ∈ hubs, (heap p).ID = k ∧ (I heap p).isSome = true) :
    ∃ p ∈ hubs, (heap p).ID = k ∧ ∃ e, I heap p = some e
      ∧ (hubs.foldl (dupeStep I heap) m) k = some e := by
  induction hubs generalizing m with
  | nil => simp at h
  | cons a rest ih =>
    rw [List.foldl_cons]
    by_cases hr : ∃ p ∈ rest, (heap p).ID = k ∧ (I heap p).isSome = true
    · obtain ⟨p, hp, hk, e, he, hv⟩ := ih (dupeStep I heap m a) hr
      exact ⟨p, List.mem_cons_of_mem _ hp, hk, e, he, hv⟩
    · have hnone : ∀ p ∈ rest, (heap p).ID = k → I heap p = none := by
        intro p hp hk
        cases hi : I heap p with
        | none => rfl
        | some e => exact absurd ⟨p, hp, hk, by simp [hi]⟩ hr
      obtain ⟨p, hp, hk, hs⟩ := h
      have hpa : p = a := by
        rcases List.mem_cons.mp hp with h1 | h1
        · exact h1
        · have := hnone p h1 hk
          rw [this] at hs
          simp at hs
      subst hpa
      cases hi : I heap p with
      | none => rw [hi] at hs; simp at hs
      | some e =>
        refine ⟨p, List.mem_cons_self _ _, hk, e, hi, ?_⟩
        rw [dupeStep_foldl_other I heap k rest _ hnone]
        simp [dupeStep, hi, DeviceMap.set, hk]

/-- Patching a child changes no id. -/
theorem patched_ID (dtd : DeviceMap) (heap : Heap) (p q : Ptr) :
    ((patched dtd heap p) q).ID = (heap q).ID := by
  unfold patched
  cases (heap p).Hub with
  | none => rfl
  | some x =>
    simp only []
    cases dtd (heap x).ID with
    | none => rfl
    | some e =>
      unfold Heap.setHub
      by_cases hq : q = p
      · subst hq; simp
      · simp [hq]

/-- Patching a child changes no other device. -/
theorem patched_other (dtd : DeviceMap) (heap : Heap) (p q : Ptr) (h : q ≠ p) :
    (patched dtd heap p) q = heap q := by
  unfold patched
  cases (heap p).Hub with
  | none => rfl
  | some x =>
    simp only []
    cases dtd (heap x).ID with
    | none => rfl
    | some e => simp [Heap.setHub, h]

/-- Patching children changes no id. -/
theorem patchedAll_ID (dtd : DeviceMap) (ps : List Ptr) (heap : Heap) (q : Ptr) :
    ((patchedAll dtd heap ps) q).ID = (heap q).ID := by
  induction ps generalizing heap with
  | nil => rfl
  | cons p rest ih => simp only [patchedAll, ih, patched_ID]

/-- Patching children changes no device outside the list. -/
theorem patchedAll_other (dtd : DeviceMap) (ps : List Ptr) (heap : Heap) (q : Ptr)
    (h : q ∉ ps) : (patchedAll dtd heap ps) q = heap q := by
  induction ps generalizing heap with
  | nil => rfl
  | cons p rest ih =>
    simp only [patchedAll]
    rw [ih _ (fun hm => h (List.mem_cons_of_mem _ hm)),
      patched_other dtd heap p q (fun hq => h (hq ▸ List.mem_cons_self _ _))]

/-- The expected child classifications of a list in two parts. -/
theorem childLog_append (I : Heap → Ptr → Option Ptr) (dtd : DeviceMap) (pre rest : List Ptr)
    (heap : Heap) :
    childLog I dtd heap (pre ++ rest)
      = childLog I dtd heap pre ++ childLog I dtd (patchedAll dtd heap pre) rest := by
  induction pre generalizing heap with
  | nil => rfl
  | cons p ps ih =>
    show classifyAt I (patched dtd heap p) p :: childLog I dtd (patched dtd heap p) (ps ++ rest) = _
    rw [ih]
    rfl

/-- C14: in `writeDiscoveryResults` every discovered device gets exactly one classifying
assignment, all hub devices (`Hub` absent) before any child, each group in list order.  A
hub device is tested in the unchanged heap, a child in the heap in which its own patch
(and those of the children before it) has been made; the device goes to the duplicate set,
keyed by the id of the existing device that `IsDupeDevice` returns, exactly when
`IsDupeDevice` reports a duplicate, and to the new-device set keyed by its own id
otherwise.  The two sets are what these assignments leave.  For a hub device classified as
a duplicate, `deviceToDupe` holds under its id the existing device reported for a
duplicate hub with that id (its own, when hub ids are unique); and a child of such a hub is
tested with its `Hub` replaced by that existing device. -/
theorem C14_classification (I : Heap → Ptr → Option Ptr) (heap : Heap) (devices : List Ptr) :
    (writeDiscoveryResults I heap devices).log.map Classified.device
        = devices.filter (isHub heap) ++ devices.filter (isChild heap)
    ∧ (writeDiscoveryResults I heap devices).log
        = (devices.filter (isHub heap)).map (classifyAt I heap)
          ++ childLog I (writeDiscoveryResults I heap devices).deviceToDupe heap
              (devices.filter (isChild heap))
    ∧ (writeDiscoveryResults I heap devices).deviceToDupe
        = dupeOfHubs I heap (devices.filter (isHub heap))
    ∧ (writeDiscoveryResults I heap devices).inputDevices
        = (writeDiscoveryResults I heap devices).log.foldl Classified.applyNew DeviceMap.empty
    ∧ (writeDiscoveryResults I heap devices).dupeDevices
        = (writeDiscoveryResults I heap devices).log.foldl Classified.applyDupe DeviceMap.empty
    ∧ (∀ h ∈ devices.filter (isHub heap), ∀ e, I heap h = some e →
        (∃ h2 ∈ devices.filter (isHub heap), (heap h2).ID = (heap h).ID ∧ ∃ e2,
            I heap h2 = some e2
            ∧ (writeDiscoveryResults I heap devices).deviceToDupe (heap h).ID = some e2)
        ∧ ((∀ h2 ∈ devices.filter (isHub heap), (heap h2).ID = (heap h).ID → h2 = h) →
            (writeDiscoveryResults I heap devices).deviceToDupe (heap h).ID = some e))
    ∧ (∀ (pre post : List Ptr) (c h e : Ptr),
        devices.filter (isChild heap) = pre ++ c :: post → c ∉ pre →
        (heap c).Hub = some h → h ∈ devices.filter (isHub heap) → I heap h = some e →
        (∀ h2 ∈ devices.filter (isHub heap), (heap h2).ID = (heap h).ID → h2 = h) →
        ((patched (writeDiscoveryResults I heap devices).deviceToDupe
            (patchedAll (writeDiscoveryResults I heap devices).deviceToDupe heap pre) c) c).Hub
          = some e
        ∧ (writeDiscoveryResults I heap devices).log
          = (devices.filter (isHub heap)).map (classifyAt I heap)
            ++ childLog I (writeDiscoveryResults I heap devices).deviceToDupe heap pre
            ++ classifyAt I
                (patched (writeDiscoveryResults I heap devices).deviceToDupe
                  (patchedAll (writeDiscoveryResults I heap devices).deviceToDupe heap pre) c) c
              :: childLog I (writeDiscoveryResults I heap devices).deviceToDupe
                  (patched (writeDiscoveryResults I heap devices).deviceToDupe
                    (patchedAll (writeDiscoveryResults I heap devices).deviceToDupe heap pre) c)
                  post) := by
  have h1 := hubLoop_spec I devices ⟨heap, DeviceMap.empty, DeviceMap.empty, DeviceMap.empty, []⟩
  have h2 := childLoop_spec I devices
    (devices.foldl (hubPass I) ⟨heap, DeviceMap.empty, DeviceMap.empty, DeviceMap.empty, []⟩)
  obtain ⟨a1, a2, a3, a4, a5⟩ := h1
  obtain ⟨b1, b2, b3, b4, b5⟩ := h2
  simp only [a1, a2, a3, a4, a5, List.nil_append] at b1 b2 b3 b4 b5
  have hlog : (writeDiscoveryResults I heap devices).log
      = (devices.filter (isHub heap)).map (classifyAt I heap)
        ++ childLog I (writeDiscoveryResults I heap devices).deviceToDupe heap
            (devices.filter (isChild heap)) := by
    unfold writeDiscoveryResults
    simp only [b3, b1]
  have hdtd : (writeDiscoveryResults I heap devices).deviceToDupe
      = dupeOfHubs I heap (devices.filter (isHub heap)) := by
    unfold writeDiscoveryResults dupeOfHubs
    simp only [b1]
  have hdupe : ∀ h ∈ devices.filter (isHub heap), ∀ e, I heap h = some e →
      (∃ h2 ∈ devices.filter (isHub heap), (heap h2).ID = (heap h).ID ∧ ∃ e2,
          I heap h2 = some e2
          ∧ (writeDiscoveryResults I heap devices).deviceToDupe (heap h).ID = some e2)
      ∧ ((∀ h2 ∈ devices.filter (isHub heap), (heap h2).ID = (heap h).ID → h2 = h) →
          (writeDiscoveryResults I heap devices).deviceToDupe (heap h).ID = some e) := by
    intro h hh e he
    have hex : ∃ p ∈ devices.filter (isHub heap),
        (heap p).ID = (heap h).ID ∧ (I heap p).isSome = true :=
      ⟨h, hh, rfl, by simp [he]⟩
    have hs := dupeStep_foldl_some I heap (heap h).ID (devices.filter (isHub heap))
      DeviceMap.empty hex
    rw [hdtd]
    unfold dupeOfHubs
    refine ⟨hs, fun huniq => ?_⟩
    obtain ⟨p, hp, hk, e2, he2, hv⟩ := hs
    have hph := huniq p hp hk
    subst hph
    rw [he] at he2
    cases he2
    exact hv
  refine ⟨?_, hlog, hdtd, ?_, ?_, hdupe, ?_⟩
  · rw [hlog, List.map_append, childLog_device, List.map_map]
    congr 1
    conv_rhs => rw [← List.map_id (devices.filter (isHub heap))]
    apply List.map_congr_left
    intro p _
    exact classifyAt_device I heap p
  · rw [hlog, List.foldl_append]
    unfold writeDiscoveryResults
    simp only [b4, b1]
  · rw [hlog, List.foldl_append]
    unfold writeDiscoveryResults
    simp only [b5, b1]
  · intro pre post c h e hsplit hc hhub hh he huniq
    have hd := (hdupe h hh e he).2 huniq
    constructor
    · have hcpre : (patchedAll (writeDiscoveryResults I heap devices).deviceToDupe heap pre) c
          = heap c := patchedAll_other _ pre heap c hc
      unfold patched
      simp only [hcpre, hhub, patchedAll_ID, hd]
      simp [Heap.setHub]
    · rw [hlog, hsplit, childLog_append, List.append_assoc]
      rfl

/-- Witness for C14: the discovered child 2 is listed before its hub 1, which duplicates
the imported device 10; 3 is a new hub.  The hubs are classified first and the child is
tested with its `Hub` replaced by 10. -/
theorem C14_classification_witness :
    (writeDiscoveryResults isDupe1 heap1 [2, 1, 3]).log.map Classified.device = [1, 3, 2]
    ∧ (writeDiscoveryResults isDupe1 heap1 [2, 1, 3]).deviceToDupe (heap1 1).ID = some 10
    ∧ ((patched (writeDiscoveryResults isDupe1 heap1 [2, 1, 3]).deviceToDupe
          (patchedAll (writeDiscoveryResults isDupe1 heap1 [2, 1, 3]).deviceToDupe heap1 [])
          2) 2).Hub = some 10 :=
  ⟨(C14_classification isDupe1 heap1 [2, 1, 3]).1,
   ((C14_classification isDupe1 heap1 [2, 1, 3]).2.2.2.2.2.1 1 (by decide) 10 rfl).2
      (by decide),
   ((C14_classification isDupe1 heap1 [2, 1, 3]).2.2.2.2.2.2 [] [] 2 1 10 (by decide)
      (by decide) rfl (by decide) rfl (by decide)).1⟩

end GoHome
